import Mathlib

/-!
Shallow embedding of packages/core/src/controllers/ConvertController.ts.

JavaScript numbers are modelled as exact rationals extended with NaN and the
two infinities (IEEE rounding and signed zeros are not modelled; no theorem
below depends on rounding).  JavaScript records are modelled as association
lists, strings as Lean strings, bigints as Int.  External collaborators
(AccountController, ConvertApiController, ConnectionController,
SnackController, RouterController, the formatUnits helper of the wallet SDK)
are modelled as an environment of oracle responses; calls to them are recorded
as effects.  Rejected promises and thrown errors are modelled with Except;
an operation returns its outcome together with the state it leaves behind
(mutations made before a throw persist, as they do on the valtio proxy).
-/

namespace Web3Modal

/-- JavaScript number: NaN, plus/minus infinity, or a finite value modelled
as an exact rational. -/
inductive JSNum where
  | nan
  | inf
  | ninf
  | num (q : ℚ)
  deriving DecidableEq

/-- JS multiplication. -/
def jsMul : JSNum → JSNum → JSNum
  | .nan, _ => .nan
  | _, .nan => .nan
  | .num a, .num b => .num (a * b)
  | .inf, .num b => if b = 0 then .nan else if 0 < b then .inf else .ninf
  | .num a, .inf => if a = 0 then .nan else if 0 < a then .inf else .ninf
  | .ninf, .num b => if b = 0 then .nan else if 0 < b then .ninf else .inf
  | .num a, .ninf => if a = 0 then .nan else if 0 < a then .ninf else .inf
  | .inf, .inf => .inf
  | .inf, .ninf => .ninf
  | .ninf, .inf => .ninf
  | .ninf, .ninf => .inf

/-- JS addition. -/
def jsAdd : JSNum → JSNum → JSNum
  | .nan, _ => .nan
  | _, .nan => .nan
  | .num a, .num b => .num (a + b)
  | .inf, .ninf => .nan
  | .ninf, .inf => .nan
  | .inf, _ => .inf
  | _, .inf => .inf
  | .ninf, _ => .ninf
  | _, .ninf => .ninf

/-- JS negation. -/
def jsNeg : JSNum → JSNum
  | .nan => .nan
  | .inf => .ninf
  | .ninf => .inf
  | .num a => .num (-a)

/-- JS subtraction. -/
def jsSub (a b : JSNum) : JSNum := jsAdd a (jsNeg b)

/-- JS division (division by zero yields an infinity, 0/0 is NaN; the sign
of zero is not modelled, a zero divisor is treated as +0). -/
def jsDiv : JSNum → JSNum → JSNum
  | .nan, _ => .nan
  | _, .nan => .nan
  | .num a, .num b =>
      if b = 0 then (if a = 0 then .nan else if 0 < a then .inf else .ninf)
      else .num (a / b)
  | .inf, .num _ => .inf
  | .ninf, .num _ => .ninf
  | .num _, .inf => .num 0
  | .num _, .ninf => .num 0
  | .inf, .inf => .nan
  | .inf, .ninf => .nan
  | .ninf, .inf => .nan
  | .ninf, .ninf => .nan

/-- JS strict less-than (false whenever either side is NaN). -/
def jsLt : JSNum → JSNum → Bool
  | .nan, _ => false
  | _, .nan => false
  | .num a, .num b => decide (a < b)
  | .ninf, .ninf => false
  | .inf, .inf => false
  | .ninf, _ => true
  | _, .inf => true
  | .inf, _ => false
  | _, .ninf => false

/-- JS truthiness of a number: 0 and NaN are falsy. -/
def jsTruthy : JSNum → Bool
  | .nan => false
  | .num q => decide (q ≠ 0)
  | _ => true

/-- Math.round: floor (x + 1/2). -/
def jsRound : JSNum → JSNum
  | .nan => .nan
  | .inf => .inf
  | .ninf => .ninf
  | .num q => .num ((⌊q + 1/2⌋ : Int) : ℚ)

/-- Number.prototype.toString for the values produced here.  Integral values
render in decimal as in JS; for non-integral values the exact JS float
formatting is not modelled (no theorem depends on it). -/
def jsNumToString : JSNum → String
  | .nan => "NaN"
  | .inf => "Infinity"
  | .ninf => "-Infinity"
  | .num q => if q.den = 1 then toString q.num else toString q.num ++ "/" ++ toString q.den

/-- One decimal digit of a character, if any. -/
def charDigit (c : Char) : Option Nat :=
  if '0' ≤ c ∧ c ≤ '9' then some (c.toNat - '0'.toNat) else none

/-- Longest digit run at the head of a character list, with the rest. -/
def takeDigits : List Char → List Nat × List Char
  | [] => ([], [])
  | c :: cs =>
    match charDigit c with
    | some d =>
      let r := takeDigits cs
      (d :: r.1, r.2)
    | none => ([], c :: cs)

/-- Value of a digit list read left to right. -/
def digitsToNat (ds : List Nat) : Nat := ds.foldl (fun a d => a * 10 + d) 0

/-- JS parseFloat on a character list: optional leading whitespace and sign,
then digits with optional fraction and exponent, or the literal Infinity;
NaN when no numeric prefix exists.  (Parsing stops at the first character
that does not extend the number, as parseFloat does.) -/
def parseFloatCore (cs0 : List Char) : JSNum :=
  let cs1 := cs0.dropWhile (fun c => c = ' ' ∨ c = '\t' ∨ c = '\n' ∨ c = '\r')
  let sign : Int := match cs1 with
    | '-' :: _ => -1
    | _ => 1
  let cs2 : List Char := match cs1 with
    | '-' :: r => r
    | '+' :: r => r
    | _ => cs1
  if cs2.take 8 = "Infinity".data then
    (if sign = 1 then .inf else .ninf)
  else
    let ints := takeDigits cs2
    let fracs : List Nat × List Char := match ints.2 with
      | '.' :: r => takeDigits r
      | _ => ([], ints.2)
    if ints.1.isEmpty ∧ fracs.1.isEmpty then .nan
    else
      let mant : ℚ :=
        (digitsToNat ints.1 : ℚ) + (digitsToNat fracs.1 : ℚ) / ((10 : ℚ) ^ fracs.1.length)
      let expo : Int := match fracs.2 with
        | c :: r =>
          if c = 'e' ∨ c = 'E' then
            let esign : Int := match r with
              | '-' :: _ => -1
              | _ => 1
            let r2 : List Char := match r with
              | '-' :: r3 => r3
              | '+' :: r3 => r3
              | _ => r
            let eds := takeDigits r2
            if eds.1.isEmpty then 0 else esign * (digitsToNat eds.1 : Int)
          else 0
        | [] => 0
      .num ((sign : ℚ) * mant * (10 : ℚ) ^ expo)

/-- JS parseFloat. -/
def parseFloat (s : String) : JSNum := parseFloatCore s.data

/-- An amount string counts as numeric when parseFloat does not yield NaN. -/
def isNumericString (s : String) : Bool := decide (parseFloat s ≠ JSNum.nan)

/-- JS BigInt(string): optional surrounding whitespace and sign then decimal
digits; the empty string denotes zero; anything else throws.  (The hex and
binary literal forms are not used by this code.) -/
def jsBigInt (s : String) : Except String Int :=
  let ws := fun (c : Char) => c = ' ' ∨ c = '\t' ∨ c = '\n' ∨ c = '\r'
  let cs1 := ((s.data.dropWhile ws).reverse.dropWhile ws).reverse
  match cs1 with
  | [] => .ok 0
  | _ =>
    let sign : Int := match cs1 with
      | '-' :: _ => -1
      | _ => 1
    let cs2 : List Char := match cs1 with
      | '-' :: r => r
      | '+' :: r => r
      | _ => cs1
    let r := takeDigits cs2
    if r.1.isEmpty ∨ ¬ r.2.isEmpty then
      .error "Cannot convert string to a BigInt"
    else
      .ok (sign * (digitsToNat r.1 : Int))

/-- JS truthiness of an optional string (undefined and the empty string are
falsy). -/
def strTruthy (o : Option String) : Bool :=
  match o with
  | none => false
  | some s => !s.isEmpty

/-- JS (o || d) for an optional string: the fallback replaces undefined and
the empty string. -/
def jsOr (o : Option String) (d : String) : String :=
  match o with
  | none => d
  | some s => if s.isEmpty then d else s

/-- JS truthiness of an optional number field such as token decimals
(undefined and 0 are falsy). -/
def natTruthy (o : Option Nat) : Bool :=
  match o with
  | none => false
  | some n => decide (n ≠ 0)

/-- Record lookup on the association-list model of a JS object. -/
def recGet (m : List (String × String)) (k : String) : Option String :=
  List.lookup k m

/-- Record assignment on the association-list model of a JS object. -/
def recSet (m : List (String × String)) (k v : String) : List (String × String) :=
  if m.any (fun p => p.1 = k) then
    m.map (fun p => if p.1 = k then (k, v) else p)
  else
    m ++ [(k, v)]

/-- Constant CURRENT_CHAIN_ADDRESS of ConvertController.ts. -/
def CURRENT_CHAIN_ADDRESS : String := "0xeeeeeeeeeeeeeeeeeeeeeeeeeeeeeeeeeeeeeeee"

/-- Constant DEFAULT_SLIPPAGE_TOLERANCE of ConvertController.ts. -/
def DEFAULT_SLIPPAGE_TOLERANCE : String := "0.5"

/-- Interface TokenInfo. -/
structure TokenInfo where
  address : String
  symbol : String
  name : String
  decimals : Nat
  logoURI : String
  domainVersion : Option String := none
  eip2612 : Option Bool := none
  isFoT : Option Bool := none
  tags : Option (List String) := none
  deriving DecidableEq

/-- Interface TokenInfoWithBalance. -/
structure TokenInfoWithBalance extends TokenInfo where
  balance : String
  price : String
  deriving DecidableEq

/-- Type TransactionParams (gas fields are bigint, modelled as Int; the
field named to in the source is called tto here because Lean reserves to). -/
structure TransactionParams where
  data : String
  tto : String
  gas : Int
  gasPrice : Int
  value : Int
  deriving DecidableEq

/-- Class TransactionError (an Error with an optional shortMessage). -/
structure TransactionError where
  message : Option String := none
  shortMessage : Option String := none
  deriving DecidableEq

/-- Interface ConvertControllerState. -/
structure ConvertControllerState where
  initialized : Bool
  loadingPrices : Bool
  loading : Bool
  approvalTransaction : Option TransactionParams
  convertLoading : Bool
  convertTransaction : Option TransactionParams
  transactionLoading : Bool
  transactionError : Option String
  sourceToken : Option TokenInfo
  sourceTokenAmount : String
  sourceTokenPriceInUSD : JSNum
  toToken : Option TokenInfo
  toTokenAmount : String
  toTokenPriceInUSD : JSNum
  networkPrice : String
  networkAddress : Option String
  inputError : Option String
  slippage : String
  tokens : Option (List (String × TokenInfo))
  popularTokens : Option (List (String × TokenInfo))
  foundTokens : Option (List TokenInfo)
  myTokensWithBalance : Option (List (String × TokenInfoWithBalance))
  tokensPriceMap : List (String × String)
  gasFee : Int
  gasPriceInUSD : Option JSNum
  priceImpact : Option JSNum
  maxSlippage : Option JSNum
  deriving DecidableEq

/-- The initial proxy state (lines 99-138 of ConvertController.ts). -/
def defaultState : ConvertControllerState where
  initialized := false
  loading := false
  loadingPrices := false
  approvalTransaction := none
  convertLoading := false
  convertTransaction := none
  transactionError := none
  transactionLoading := false
  sourceToken := none
  sourceTokenAmount := ""
  sourceTokenPriceInUSD := .num 0
  toToken := none
  toTokenAmount := ""
  toTokenPriceInUSD := .num 0
  networkPrice := "0"
  networkAddress := some CURRENT_CHAIN_ADDRESS
  inputError := none
  slippage := DEFAULT_SLIPPAGE_TOLERANCE
  tokens := none
  popularTokens := none
  foundTokens := none
  myTokensWithBalance := none
  tokensPriceMap := []
  gasFee := 0
  gasPriceInUSD := some (.num 0)
  priceImpact := none
  maxSlippage := none

/-- The record returned by getParams. -/
structure SwapParams where
  fromAddress : String
  sourceTokenAddress : Option String
  toTokenAddress : Option String
  toTokenAmount : String
  toTokenDecimals : Option Nat
  sourceTokenAmount : String
  sourceTokenDecimals : Option Nat
  deriving DecidableEq

/-- Calls made to the external collaborators, recorded in order. -/
inductive Effect where
  | fetchTokenList
  | fetchTokenPrice (addresses : List String)
  | fetchMyTokens
  | fetchGasPrice
  | checkAllowance
  | fetchApprovalData
  | fetchConvertData
  | estimateGas
  | sendTransaction
  | showError (msg : String)
  | routerReplace (page : String)
  | scheduleReset
  deriving DecidableEq

/-- Response shape of ConvertApiController.getConvertApprovalData. -/
structure ApprovalTxData where
  data : String
  tto : String
  gasPrice : Int
  value : Int
  deriving DecidableEq

/-- Response shape of ConvertApiController.getConvertData (the tx record). -/
structure ConvertTxData where
  data : String
  tto : String
  gas : Int
  gasPrice : Int
  value : Int
  deriving DecidableEq

/-- Oracle responses of the external collaborators.  Each field is the value
the corresponding awaited call resolves to (responses are modelled as fixed
per environment). -/
structure Env where
  accountAddress : Option String
  priceResponse : List String → List (String × String)
  tokenListResponse : List (String × TokenInfo)
  popularTokensList : List String
  myTokensResponse : Option (List (String × TokenInfoWithBalance))
  gasPriceResponse : Int
  hasAllowanceResponse : Bool
  approvalData : ApprovalTxData
  estimatedGas : Int
  convertData : ConvertTxData
  formatUnits : Int → Nat → String
  sendTxResult : Except TransactionError String

/-- Result of running one controller operation: the outcome (ok value or the
message of an uncaught thrown Error), the state left behind, and the calls
made to external collaborators. -/
structure Outcome (α : Type) where
  result : Except String α
  state : ConvertControllerState
  effects : List Effect

/-- True when an Except result is ok (the operation did not throw). -/
def isOkE {α : Type} : Except String α → Bool
  | .ok _ => true
  | .error _ => false

/-- getParams (lines 152-168): throws when the account address is falsy,
otherwise collects the swap parameters from the state. -/
def getParams (env : Env) (s : ConvertControllerState) : Except String SwapParams :=
  if strTruthy env.accountAddress then
    .ok { fromAddress := env.accountAddress.getD ""
          sourceTokenAddress := s.sourceToken.map (fun t => t.address)
          toTokenAddress := s.toToken.map (fun t => t.address)
          toTokenAmount := s.toTokenAmount
          toTokenDecimals := s.toToken.map (fun t => t.decimals)
          sourceTokenAmount := s.sourceTokenAmount
          sourceTokenDecimals := s.sourceToken.map (fun t => t.decimals) }
  else
    .error "No address found to swap the tokens from."

/-- setTokenPriceToMap (lines 346-356): fetches the price for one address,
defaults an absent price to the string 0, stores it in tokensPriceMap and,
for the chain address, in networkPrice; returns the stored string. -/
def setTokenPriceToMap (env : Env) (s : ConvertControllerState) (address : String) :
    String × ConvertControllerState × List Effect :=
  let prices := env.priceResponse [address]
  let price := jsOr (List.lookup address prices) "0"
  let s1 := { s with tokensPriceMap := recSet s.tokensPriceMap address price }
  let s2 := if address = CURRENT_CHAIN_ADDRESS then { s1 with networkPrice := price } else s1
  (price, s2, [Effect.fetchTokenPrice [address]])

/-- getAddressPrice (lines 334-344): returns the cached price when the map
holds a truthy entry, otherwise fetches, defaults to the string 0, caches
and returns the parsed value. -/
def getAddressPrice (env : Env) (s : ConvertControllerState) (address : String) :
    JSNum × ConvertControllerState × List Effect :=
  let existPrice := recGet s.tokensPriceMap address
  if strTruthy existPrice then
    (parseFloat (existPrice.getD ""), s, [])
  else
    let prices := env.priceResponse [address]
    let price := jsOr (List.lookup address prices) "0"
    (parseFloat price,
     { s with tokensPriceMap := recSet s.tokensPriceMap address price },
     [Effect.fetchTokenPrice [address]])

/-- getNetworkTokenPrice (lines 358-363). -/
def getNetworkTokenPrice (env : Env) (s : ConvertControllerState) :
    ConvertControllerState × List Effect :=
  let prices := env.priceResponse [CURRENT_CHAIN_ADDRESS]
  let price := jsOr (List.lookup CURRENT_CHAIN_ADDRESS prices) "0"
  ({ s with tokensPriceMap := recSet s.tokensPriceMap CURRENT_CHAIN_ADDRESS price
            networkPrice := price },
   [Effect.fetchTokenPrice [CURRENT_CHAIN_ADDRESS]])

/-- getMyTokensWithBalance (lines 365-379): on a present response, replaces
tokensPriceMap with exactly the returned address/price pairs and replaces
myTokensWithBalance. -/
def getMyTokensWithBalance (env : Env) (s : ConvertControllerState) :
    ConvertControllerState × List Effect :=
  match env.myTokensResponse with
  | none => (s, [Effect.fetchMyTokens])
  | some res =>
    ({ s with tokensPriceMap := res.map (fun p => (p.1, p.2.price))
              myTokensWithBalance := some res },
     [Effect.fetchMyTokens])

/-- Stable insertion used to model Array.prototype.sort with the symbol
comparator of getTokenList. -/
def insertBySymbol (x : String × TokenInfo) :
    List (String × TokenInfo) → List (String × TokenInfo)
  | [] => [x]
  | y :: ys => if y.2.symbol ≤ x.2.symbol then y :: insertBySymbol x ys else x :: y :: ys

/-- Sort of the token entries by symbol (ascending), as getTokenList does. -/
def sortBySymbol : List (String × TokenInfo) → List (String × TokenInfo)
  | [] => []
  | x :: xs => insertBySymbol x (sortBySymbol xs)

/-- getTokenList (lines 308-332): stores the fetched tokens, and as
popularTokens the entries sorted by symbol and filtered to the popular
symbol list (ConstantsUtil.POPULAR_TOKENS, an external constant supplied by
the environment). -/
def getTokenList (env : Env) (s : ConvertControllerState) :
    ConvertControllerState × List Effect :=
  let res := env.tokenListResponse
  let popular := (sortBySymbol res).filter (fun p => env.popularTokensList.contains p.2.symbol)
  ({ s with tokens := some res, popularTokens := some popular },
   [Effect.fetchTokenList])

/-- initializeState (lines 272-279): on the first call runs the three
fetches then marks the state initialized; does nothing when already
initialized. -/
def initializeState (env : Env) (s : ConvertControllerState) :
    ConvertControllerState × List Effect :=
  if s.initialized then (s, [])
  else
    let r1 := getTokenList env s
    let r2 := getNetworkTokenPrice env r1.1
    let r3 := getMyTokensWithBalance env r2.1
    ({ r3.1 with initialized := true }, r1.2 ++ r2.2 ++ r3.2)

/-- checkSourceTokenValues (lines 193-207). -/
def checkSourceTokenValues (env : Env) (s : ConvertControllerState)
    (address amount : String) : ConvertControllerState × List Effect :=
  let balance := jsOr ((s.myTokensWithBalance.bind
    (fun m => List.lookup address m)).map (fun t => t.balance)) "0"
  let r := getAddressPrice env s address
  let price := r.1
  let s1 := r.2.1
  let balancePriceInUSD := jsMul (parseFloat balance) price
  let amountPriceInUSD := jsMul (parseFloat amount) price
  let insufficientBalance := jsLt balancePriceInUSD amountPriceInUSD
  let s2 := { s1 with sourceTokenPriceInUSD := price
                      inputError := if insufficientBalance then
                        some "Insufficient balance" else none }
  let s3 := if insufficientBalance then
      { s2 with toTokenAmount := "0", toTokenPriceInUSD := .num 0 }
    else s2
  (s3, r.2.2)

/-- setSourceToken (lines 170-179): ignores an undefined token; otherwise
stores it and, when no truthy cached price exists, fires setTokenPriceToMap
(the un-awaited async call is modelled as running inline). -/
def setSourceToken (env : Env) (s : ConvertControllerState) (tok : Option TokenInfo) :
    ConvertControllerState × List Effect :=
  match tok with
  | none => (s, [])
  | some t =>
    let s1 := { s with sourceToken := some t }
    if !t.address.isEmpty && !(strTruthy (recGet s1.tokensPriceMap t.address)) then
      let r := setTokenPriceToMap env s1 t.address
      (r.2.1, r.2.2)
    else
      (s1, [])

/-- setSourceTokenAmount (lines 181-191): stores the amount, then throws when
the source token address is falsy, otherwise runs checkSourceTokenValues
(the un-awaited async call is modelled as running inline).  A getParams
failure propagates before the amount is stored. -/
def setSourceTokenAmount (env : Env) (s : ConvertControllerState) (amount : String) :
    Outcome Unit :=
  match getParams env s with
  | .error e => ⟨.error e, s, []⟩
  | .ok p =>
    let s1 := { s with sourceTokenAmount := amount }
    if !(strTruthy p.sourceTokenAddress) then
      ⟨.error "No source token address found", s1, []⟩
    else
      let r := checkSourceTokenValues env s1 (p.sourceTokenAddress.getD "") amount
      ⟨.ok (), r.1, r.2⟩

/-- setToTokenAmount (lines 209-211). -/
def setToTokenAmount (s : ConvertControllerState) (amount : String) :
    ConvertControllerState :=
  { s with toTokenAmount := amount }

/-- checkToTokenValues (lines 226-229). -/
def checkToTokenValues (env : Env) (s : ConvertControllerState) (address : String) :
    ConvertControllerState × List Effect :=
  let r := setTokenPriceToMap env s address
  ({ r.2.1 with toTokenPriceInUSD := parseFloat r.1 }, r.2.2)

/-- setToToken (lines 213-224): ignores a token with a falsy address;
otherwise stores it and takes the price from the cache when a truthy entry
exists, else via checkToTokenValues. -/
def setToToken (env : Env) (s : ConvertControllerState) (toToken : Option TokenInfo) :
    ConvertControllerState × List Effect :=
  match toToken with
  | none => (s, [])
  | some t =>
    if t.address.isEmpty then (s, [])
    else
      let s1 := { s with toToken := some t }
      if strTruthy (recGet s1.tokensPriceMap t.address) then
        ({ s1 with toTokenPriceInUSD :=
            parseFloat (jsOr (recGet s1.tokensPriceMap t.address) "0") }, [])
      else
        checkToTokenValues env s1 t.address

/-- setLoading (lines 231-233). -/
def setLoading (s : ConvertControllerState) (isLoading : Bool) : ConvertControllerState :=
  { s with loading := isLoading }

/-- switchTokens (lines 235-244): re-selects each side with the other side's
old token through the setters (which drop an absent or address-less value),
then clears both amounts. -/
def switchTokens (env : Env) (s : ConvertControllerState) :
    ConvertControllerState × List Effect :=
  let newSourceToken := s.toToken
  let newToToken := s.sourceToken
  let r1 := setSourceToken env s newSourceToken
  let r2 := setToToken env r1.1 newToToken
  ({ r2.1 with sourceTokenAmount := "", toTokenAmount := "" }, r1.2 ++ r2.2)

/-- clearFoundTokens (lines 246-248). -/
def clearFoundTokens (s : ConvertControllerState) : ConvertControllerState :=
  { s with foundTokens := none }

/-- clearTokens (lines 250-252). -/
def clearTokens (s : ConvertControllerState) : ConvertControllerState :=
  { s with tokens := none }

/-- resetState (lines 254-262). -/
def resetState (s : ConvertControllerState) : ConvertControllerState :=
  { s with sourceToken := none
           toToken := none
           sourceTokenAmount := "0"
           toTokenAmount := "0"
           sourceTokenPriceInUSD := .num 0
           toTokenPriceInUSD := .num 0
           gasPriceInUSD := some (.num 0) }

/-- clearMyTokens (lines 264-266). -/
def clearMyTokens (s : ConvertControllerState) : ConvertControllerState :=
  { s with myTokensWithBalance := none }

/-- clearError (lines 268-270). -/
def clearError (s : ConvertControllerState) : ConvertControllerState :=
  { s with transactionError := none }

/-- setGasFee (lines 381-384). -/
def setGasFee (env : Env) (s : ConvertControllerState) :
    ConvertControllerState × List Effect :=
  ({ s with gasFee := env.gasPriceResponse }, [Effect.fetchGasPrice])

/-- calculateGasPriceInEther (lines 386-391). -/
def calculateGasPriceInEther (gas gasPrice : Int) : JSNum :=
  .num (((gasPrice * gas : Int) : ℚ) / ((10 : ℚ) ^ (18 : Nat)))

/-- calculateGasPriceInUSD (lines 393-403); the try/catch has no live error
path in this model. -/
def calculateGasPriceInUSD (s : ConvertControllerState) (gas gasPrice : Int) : JSNum :=
  jsMul (calculateGasPriceInEther gas gasPrice) (parseFloat s.networkPrice)

/-- calculatePriceDifference (lines 281-306). -/
def calculatePriceDifference (s : ConvertControllerState) : JSNum × String :=
  let sourceTokenValue := jsMul (parseFloat s.sourceTokenAmount) s.sourceTokenPriceInUSD
  let toTokenValue := jsMul (parseFloat s.toTokenAmount) s.toTokenPriceInUSD
  if !(jsTruthy sourceTokenValue) || !(jsTruthy toTokenValue) then
    (.num 0, "none")
  else
    let priceChange := jsSub sourceTokenValue toTokenValue
    let changeInPercentage := jsMul (jsDiv priceChange toTokenValue) (.num 100)
    let direction := if jsLt (.num 0) changeInPercentage then "up"
      else if jsLt changeInPercentage (.num 0) then "down" else "none"
    (changeInPercentage, direction)

/-- calculatePriceImpact (lines 405-418). -/
def calculatePriceImpact (s : ConvertControllerState) (amountStr : String)
    (gasPriceInUSD : JSNum) : JSNum :=
  let sourceTokenAmount := parseFloat s.sourceTokenAmount
  let toTokenAmount := parseFloat amountStr
  let sourceTokenPrice := s.sourceTokenPriceInUSD
  let toTokenPrice := s.toTokenPriceInUSD
  let totalSourceCostUSD := jsMul sourceTokenAmount sourceTokenPrice
  let adjustedTotalSourceCostUSD := jsAdd totalSourceCostUSD gasPriceInUSD
  let effectivePriceIncludingGas := jsDiv adjustedTotalSourceCostUSD toTokenAmount
  jsMul (jsDiv (jsSub effectivePriceIncludingGas toTokenPrice) toTokenPrice) (.num 100)

/-- calculateMaxSlippage (lines 420-426). -/
def calculateMaxSlippage (s : ConvertControllerState) : JSNum :=
  jsMul (parseFloat s.sourceTokenAmount) (jsDiv (parseFloat s.slippage) (.num 100))

/-- getToAmount (lines 490-501). -/
def getToAmount (s : ConvertControllerState) : String :=
  let toTokenConvertedAmount :=
    if jsTruthy s.sourceTokenPriceInUSD && jsTruthy s.toTokenPriceInUSD then
      jsMul (jsDiv (.num 1) s.toTokenPriceInUSD) s.sourceTokenPriceInUSD
    else
      .num 0
  let scaledNumber := jsMul toTokenConvertedAmount (.num 10000000000)
  jsNumToString (jsRound scaledNumber)

/-- createTokenAllowance (lines 503-527): throws when the source token
address is falsy, otherwise fetches approval data and a gas estimate and
returns the assembled transaction; it sets loading to true and never resets
it itself. -/
def createTokenAllowance (env : Env) (s : ConvertControllerState) :
    Outcome TransactionParams :=
  match getParams env s with
  | .error e => ⟨.error e, s, []⟩
  | .ok p =>
    if !(strTruthy p.sourceTokenAddress) then
      ⟨.error ">>> createTokenAllowance - No source token address found.", s, []⟩
    else
      let s1 := { s with loading := true }
      let t := env.approvalData
      ⟨.ok { data := t.data, tto := t.tto, gas := env.estimatedGas,
             gasPrice := t.gasPrice, value := t.value },
       s1, [Effect.fetchApprovalData, Effect.estimateGas]⟩

/-- createConvert (lines 552-589): throws on missing parameters, otherwise
estimates gas, stores gasPriceInUSD, fetches convert data and returns the
assembled transaction. -/
def createConvert (env : Env) (s : ConvertControllerState) :
    Outcome TransactionParams :=
  match getParams env s with
  | .error e => ⟨.error e, s, []⟩
  | .ok p =>
    if p.sourceTokenAmount.isEmpty || !(strTruthy p.sourceTokenAddress) ||
       !(strTruthy p.toTokenAddress) || !(natTruthy p.sourceTokenDecimals) then
      ⟨.error ">>> createConvert: Invalid values to start converting", s, []⟩
    else
      let gasLimit := env.estimatedGas
      let s1 := { s with gasPriceInUSD := some (calculateGasPriceInUSD s gasLimit s.gasFee) }
      let r := env.convertData
      ⟨.ok { data := r.data, tto := r.tto, gas := r.gas,
             gasPrice := r.gasPrice, value := r.value },
       s1, [Effect.estimateGas, Effect.fetchConvertData]⟩

/-- sendTransactionForApproval (lines 529-550): getParams runs outside the
try block, so its error propagates; a rejected sendTransaction is caught,
its shortMessage stored in transactionError, transactionLoading reset, and
the message (or the fallback text) shown via SnackController. -/
def sendTransactionForApproval (env : Env) (s : ConvertControllerState)
    (_data : TransactionParams) : Outcome Unit :=
  match getParams env s with
  | .error e => ⟨.error e, s, []⟩
  | .ok _ =>
    let s1 := { s with transactionLoading := true }
    match env.sendTxResult with
    | .ok _ =>
      ⟨.ok (), { s1 with approvalTransaction := none, transactionLoading := false },
       [Effect.sendTransaction]⟩
    | .error err =>
      ⟨.ok (), { s1 with transactionError := err.shortMessage, transactionLoading := false },
       [Effect.sendTransaction, Effect.showError (jsOr err.shortMessage "Transaction errror")]⟩

/-- sendTransactionForConvert (lines 591-623): undefined data returns
undefined at once; otherwise as for approval, with the success branch
navigating to Transactions and scheduling resetState (the deferred
setTimeout callback is recorded as an effect, not applied), and the error
branch returning undefined. -/
def sendTransactionForConvert (env : Env) (s : ConvertControllerState)
    (data : Option TransactionParams) : Outcome (Option String) :=
  match data with
  | none => ⟨.ok none, s, []⟩
  | some _ =>
    match getParams env s with
    | .error e => ⟨.error e, s, []⟩
    | .ok _ =>
      let s1 := { s with transactionLoading := true }
      match env.sendTxResult with
      | .ok h =>
        ⟨.ok (some h), { s1 with transactionLoading := false },
         [Effect.sendTransaction, Effect.routerReplace "Transactions", Effect.scheduleReset]⟩
      | .error err =>
        ⟨.ok none, { s1 with transactionError := err.shortMessage, transactionLoading := false },
         [Effect.sendTransaction, Effect.showError (jsOr err.shortMessage "Transaction error")]⟩

/-- setToTokenAmountValue (lines 625-639): returns early on a falsy address
or amount; BigInt of a non-integral amount string throws; otherwise stores
the derived amount and price (the formatUnits result is computed and then
immediately overwritten by the source code, as modelled). -/
def setToTokenAmountValue (env : Env) (s : ConvertControllerState)
    (toTokenAmount : String) (toTokenDecimals : Nat) (toTokenAddress : String) :
    Outcome Unit :=
  if toTokenAddress.isEmpty || toTokenAmount.isEmpty then ⟨.ok (), s, []⟩
  else
    match jsBigInt toTokenAmount with
    | .error e => ⟨.error e, s, []⟩
    | .ok v =>
      let _amount := env.formatUnits v toTokenDecimals
      let sourceTokenAmount := parseFloat s.sourceTokenAmount
      let sourceTokenPrice := s.sourceTokenPriceInUSD
      let toTokenPrice := parseFloat (jsOr (recGet s.tokensPriceMap toTokenAddress) "0")
      let toTokenAmountValue := jsDiv (jsMul sourceTokenAmount sourceTokenPrice) toTokenPrice
      ⟨.ok (), { s with toTokenAmount := jsNumToString toTokenAmountValue
                        toTokenPriceInUSD := toTokenPrice }, []⟩

/-- setTransactionDetails (lines 641-654). -/
def setTransactionDetails (env : Env) (s : ConvertControllerState)
    (gas gasPrice : Int) : Outcome Unit :=
  match getParams env s with
  | .error e => ⟨.error e, s, []⟩
  | .ok p =>
    if !(strTruthy p.toTokenAddress) then ⟨.ok (), s, []⟩
    else
      let toAddr := p.toTokenAddress.getD ""
      let toTokenPrice := jsOr (recGet s.tokensPriceMap toAddr) "0"
      let s1 := { s with toTokenPriceInUSD := parseFloat toTokenPrice }
      let gp := calculateGasPriceInUSD s1 gas gasPrice
      let s2 := { s1 with gasPriceInUSD := some gp }
      let s3 := { s2 with priceImpact := some (calculatePriceImpact s2 p.toTokenAmount gp) }
      ⟨.ok (), { s3 with maxSlippage := some (calculateMaxSlippage s3) }, []⟩

/-- The early-return guard of makeChecks (lines 451-460). -/
def makeChecksGuard (p : SwapParams) : Bool :=
  !(strTruthy p.sourceTokenAddress) || p.sourceTokenAmount.isEmpty ||
  decide (parseFloat p.sourceTokenAmount = JSNum.num 0) ||
  !(natTruthy p.sourceTokenDecimals) || !(natTruthy p.toTokenDecimals) ||
  !(strTruthy p.toTokenAddress)

/-- makeChecks (lines 441-488): past the guard it sets loading, checks the
allowance, then either creates the convert transaction or the approval
transaction, updates the derived amounts and details, and finally resets
loading; a throw from a callee propagates and leaves loading set. -/
def makeChecks (env : Env) (s : ConvertControllerState) : Outcome Unit :=
  match getParams env s with
  | .error e => ⟨.error e, s, []⟩
  | .ok p =>
    if makeChecksGuard p then ⟨.ok (), s, []⟩
    else
      let s1 := { s with loading := true }
      let hasAllowance := env.hasAllowanceResponse
      let toAmount := getToAmount s1
      let toDec := p.toTokenDecimals.getD 0
      let toAddr := p.toTokenAddress.getD ""
      if hasAllowance then
        let s2 := { s1 with approvalTransaction := none }
        match createConvert env s2 with
        | ⟨.error e, s3, eff3⟩ => ⟨.error e, s3, Effect.checkAllowance :: eff3⟩
        | ⟨.ok tx, s3, eff3⟩ =>
          let s4 := { s3 with convertTransaction := some tx }
          match setToTokenAmountValue env s4 toAmount toDec toAddr with
          | ⟨.error e, s5, _⟩ => ⟨.error e, s5, Effect.checkAllowance :: eff3⟩
          | ⟨.ok _, s5, _⟩ =>
            match setTransactionDetails env s5 tx.gas tx.gasPrice with
            | ⟨.error e, s6, _⟩ => ⟨.error e, s6, Effect.checkAllowance :: eff3⟩
            | ⟨.ok _, s6, _⟩ =>
              ⟨.ok (), { s6 with loading := false }, Effect.checkAllowance :: eff3⟩
      else
        match createTokenAllowance env s1 with
        | ⟨.error e, s3, eff3⟩ => ⟨.error e, s3, Effect.checkAllowance :: eff3⟩
        | ⟨.ok tx, s3, eff3⟩ =>
          let s4 := { s3 with approvalTransaction := some tx }
          match setToTokenAmountValue env s4 toAmount toDec toAddr with
          | ⟨.error e, s5, _⟩ => ⟨.error e, s5, Effect.checkAllowance :: eff3⟩
          | ⟨.ok _, s5, _⟩ =>
            match setTransactionDetails env s5 tx.gas tx.gasPrice with
            | ⟨.error e, s6, _⟩ => ⟨.error e, s6, Effect.checkAllowance :: eff3⟩
            | ⟨.ok _, s6, _⟩ =>
              ⟨.ok (), { s6 with loading := false }, Effect.checkAllowance :: eff3⟩

/-- convertTokens (lines 429-438): returns early unless both token addresses
are set, otherwise sets convertLoading (never reset anywhere in the file)
and runs makeChecks. -/
def convertTokens (env : Env) (s : ConvertControllerState) : Outcome Unit :=
  match getParams env s with
  | .error e => ⟨.error e, s, []⟩
  | .ok p =>
    if !(strTruthy p.sourceTokenAddress) || !(strTruthy p.toTokenAddress) then
      ⟨.ok (), s, []⟩
    else
      makeChecks env { s with convertLoading := true }

/-- True when makeChecks gets past both getParams and its early-return
guard on this environment and state. -/
def makeChecksGuardPassed (env : Env) (s : ConvertControllerState) : Bool :=
  match getParams env s with
  | .error _ => false
  | .ok p => !(makeChecksGuard p)

/-- True when convertTokens gets past getParams and its early return. -/
def convertTokensEntered (env : Env) (s : ConvertControllerState) : Bool :=
  match getParams env s with
  | .error _ => false
  | .ok p => strTruthy p.sourceTokenAddress && strTruthy p.toTokenAddress

/-- A sample source token used to instantiate the theorems below. -/
def tokA : TokenInfo :=
  { address := "0xaaa", symbol := "AAA", name := "Token A", decimals := 6, logoURI := "" }

/-- A sample destination token. -/
def tokB : TokenInfo :=
  { address := "0xbbb", symbol := "BBB", name := "Token B", decimals := 6, logoURI := "" }

/-- A sample balance entry for tokA. -/
def tokABal : TokenInfoWithBalance :=
  { toTokenInfo := tokA, balance := "5", price := "2" }

/-- A sample rejection raised by the wallet layer. -/
def errBoom : TransactionError := { shortMessage := some "boom" }

/-- A sample assembled transaction. -/
def txSample : TransactionParams :=
  { data := "0x", tto := "0xccc", gas := 1, gasPrice := 1, value := 0 }

/-- A sample environment: an account is connected, the price API knows no
prices, the user holds no tokens, allowance is granted, and transaction
submission rejects with errBoom. -/
def envW : Env :=
  { accountAddress := some "0xme"
    priceResponse := fun _ => []
    tokenListResponse := []
    popularTokensList := []
    myTokensResponse := none
    gasPriceResponse := 0
    hasAllowanceResponse := true
    approvalData := { data := "0x", tto := "0xccc", gasPrice := 1, value := 0 }
    estimatedGas := 21000
    convertData := { data := "0x", tto := "0xccc", gas := 1, gasPrice := 1, value := 0 }
    formatUnits := fun _ _ => "1"
    sendTxResult := Except.error errBoom }

/-- envW with no connected account. -/
def envNoAddr : Env := { envW with accountAddress := none }

/-- A state with both tokens selected and a source amount entered. -/
def sBoth : ConvertControllerState :=
  { defaultState with sourceToken := some tokA, toToken := some tokB,
                      sourceTokenAmount := "1" }

/-! Preservation helper lemmas -/

/-- getAddressPrice only ever writes tokensPriceMap. -/
theorem getAddressPrice_preserves (env : Env) (s : ConvertControllerState) (a : String) :
    (getAddressPrice env s a).2.1.sourceTokenAmount = s.sourceTokenAmount ∧
    (getAddressPrice env s a).2.1.toTokenAmount = s.toTokenAmount ∧
    (getAddressPrice env s a).2.1.toTokenPriceInUSD = s.toTokenPriceInUSD ∧
    (getAddressPrice env s a).2.1.sourceToken = s.sourceToken ∧
    (getAddressPrice env s a).2.1.toToken = s.toToken := by
  cases h : strTruthy (recGet s.tokensPriceMap a) <;> simp [getAddressPrice, h]

/-- setTokenPriceToMap only ever writes tokensPriceMap and networkPrice. -/
theorem setTokenPriceToMap_preserves (env : Env) (s : ConvertControllerState) (a : String) :
    (setTokenPriceToMap env s a).2.1.sourceTokenAmount = s.sourceTokenAmount ∧
    (setTokenPriceToMap env s a).2.1.toTokenAmount = s.toTokenAmount ∧
    (setTokenPriceToMap env s a).2.1.toTokenPriceInUSD = s.toTokenPriceInUSD ∧
    (setTokenPriceToMap env s a).2.1.sourceToken = s.sourceToken ∧
    (setTokenPriceToMap env s a).2.1.toToken = s.toToken := by
  by_cases h : a = CURRENT_CHAIN_ADDRESS <;> simp [setTokenPriceToMap, h]

/-! Small evaluation lemmas -/

/-- parseFloat of the string 0 is the number 0. -/
theorem parseFloat_zero : parseFloat "0" = JSNum.num 0 := by
  simp [parseFloat, parseFloatCore, takeDigits, charDigit, digitsToNat]

/-- parseFloat of the string 1 is the number 1. -/
theorem parseFloat_one : parseFloat "1" = JSNum.num 1 := by
  simp [parseFloat, parseFloatCore, takeDigits, charDigit, digitsToNat]

/-- Rounding zero gives zero. -/
theorem jsRound_zero : jsRound (JSNum.num 0) = JSNum.num 0 := by
  simp [jsRound]
  norm_num

/-- The number 0 renders as the string 0. -/
theorem jsNumToString_zero : jsNumToString (JSNum.num 0) = "0" := by
  simp only [jsNumToString, Rat.den_ofNat, if_true]
  decide

/-- BigInt of the string 0 is 0. -/
theorem jsBigInt_zero : jsBigInt "0" = Except.ok 0 := by
  simp [jsBigInt, takeDigits, charDigit, digitsToNat]

/-- A falsy optional string is replaced by the fallback. -/
theorem jsOr_falsy (o : Option String) (d : String) (h : strTruthy o = false) :
    jsOr o d = d := by
  cases o with
  | none => rfl
  | some s =>
    simp only [strTruthy, Bool.not_eq_false'] at h
    simp [jsOr, h]

/-! Association-list lemmas -/

/-- Lookup after the in-place replacement half of recSet. -/
theorem lookup_replace (m : List (String × String)) (k v : String) :
    List.lookup k (m.map (fun p => if p.1 = k then (k, v) else p)) =
      (if m.any (fun p => p.1 = k) then some v else none) := by
  induction m with
  | nil => simp
  | cons p rest ih =>
    by_cases hpk : p.1 = k
    · simp [hpk]
    · have h2 : (k == p.1) = false := beq_eq_false_iff_ne.mpr (Ne.symm hpk)
      rw [List.map_cons, if_neg hpk]
      simp only [List.lookup, h2, ih, List.any_cons]
      by_cases hr : (rest.any fun p => decide (p.1 = k)) = true <;> simp [hr, hpk]

/-- Lookup after the append half of recSet. -/
theorem lookup_append_new (m : List (String × String)) (k v : String)
    (h : m.any (fun p => p.1 = k) = false) :
    List.lookup k (m ++ [(k, v)]) = some v := by
  induction m with
  | nil => simp
  | cons p rest ih =>
    simp only [List.any_cons, Bool.or_eq_false_iff] at h
    have hpk : (k == p.1) = false :=
      beq_eq_false_iff_ne.mpr (Ne.symm (of_decide_eq_false h.1))
    rw [List.cons_append]
    simp only [List.lookup, hpk]
    exact ih h.2

/-- recSet stores the assigned value under the assigned key. -/
theorem recGet_recSet_self (m : List (String × String)) (k v : String) :
    recGet (recSet m k v) k = some v := by
  unfold recSet recGet
  by_cases h : m.any (fun p => p.1 = k) = true
  · simp [h, lookup_replace]
  · simp only [Bool.not_eq_true] at h
    simp [h, lookup_append_new]

/-- Lookup distributes over mapping each entry to its price. -/
theorem lookup_map_price (l : List (String × TokenInfoWithBalance)) (a : String) :
    List.lookup a (l.map (fun p => (p.1, p.2.price))) =
      (List.lookup a l).map (fun t => t.price) := by
  induction l with
  | nil => simp
  | cons p rest ih =>
    by_cases hpa : p.1 = a
    · simp [List.lookup, hpa]
    · have h2 : (a == p.1) = false := beq_eq_false_iff_ne.mpr (Ne.symm hpa)
      simp [List.lookup, h2, ih]

/-! C5 -/

/-- C5 counterexample: resetState sets sourceTokenAmount to the string 0,
which is not the initial default (the empty string). -/
theorem c5_counterexample :
    (resetState defaultState).sourceTokenAmount ≠ defaultState.sourceTokenAmount := by
  decide

/-- C5 (amended): resetState returns sourceToken, toToken, both USD prices
and gasPriceInUSD to their initial defaults, but sets both amount strings to
the string 0, not to their initial default, the empty string. -/
theorem c5_resetState_defaults (s : ConvertControllerState) :
    (resetState s).sourceToken = defaultState.sourceToken ∧
    (resetState s).toToken = defaultState.toToken ∧
    (resetState s).sourceTokenPriceInUSD = defaultState.sourceTokenPriceInUSD ∧
    (resetState s).toTokenPriceInUSD = defaultState.toTokenPriceInUSD ∧
    (resetState s).gasPriceInUSD = defaultState.gasPriceInUSD ∧
    (resetState s).sourceTokenAmount = "0" ∧
    (resetState s).toTokenAmount = "0" ∧
    defaultState.sourceTokenAmount = "" ∧
    defaultState.toTokenAmount = "" :=
  ⟨rfl, rfl, rfl, rfl, rfl, rfl, rfl, rfl, rfl⟩

/-! C6 -/

/-- C6 counterexample: setToTokenAmount stores its argument verbatim, so a
non-numeric argument leaves a non-numeric amount string in the state. -/
theorem c6_counterexample :
    (setToTokenAmount defaultState "abc").toTokenAmount = "abc" ∧
    isNumericString ((setToTokenAmount defaultState "abc").toTokenAmount) = false := by
  refine ⟨rfl, ?_⟩
  simp [setToTokenAmount, isNumericString, parseFloat, parseFloatCore, takeDigits, charDigit]

/-- C6 (amended): the amount setters store their string argument verbatim;
nothing enforces that the stored amounts are numeric strings (they are
numeric only when the argument is).  setSourceTokenAmount stores the
argument whenever an account address is present, even on its own throwing
path. -/
theorem c6_amounts_stored_verbatim (env : Env) (s : ConvertControllerState)
    (amount : String) :
    (setToTokenAmount s amount).toTokenAmount = amount ∧
    (setSourceTokenAmount env s amount).state.sourceTokenAmount =
      (if strTruthy env.accountAddress then amount else s.sourceTokenAmount) := by
  refine ⟨rfl, ?_⟩
  by_cases h : strTruthy env.accountAddress = true
  · simp only [setSourceTokenAmount, getParams, h, if_true]
    split
    · simp
    · have hp := getAddressPrice_preserves env
        { s with sourceTokenAmount := amount }
      simp only [checkSourceTokenValues]
      split <;> simp_all
  · have h' : strTruthy env.accountAddress = false := by
      revert h; cases strTruthy env.accountAddress <;> simp
    simp [setSourceTokenAmount, getParams, h']

/-! C3 -/

/-- C3 counterexample: getParams throws when no account address is set, so
not every operation outside the two send functions completes without
raising an error. -/
theorem c3_counterexample :
    getParams envNoAddr defaultState =
      Except.error "No address found to swap the tokens from." := rfl

/-- C3 (amended): outside the two send functions no error is caught, and
the operations that can raise do so exactly when required parameters are
missing: getParams throws iff the account address is falsy;
setSourceTokenAmount and createTokenAllowance additionally require a
source token address; createConvert additionally requires a nonempty
source amount, a destination token address and nonzero source decimals. -/
theorem c3_throw_conditions (env : Env) (s : ConvertControllerState)
    (amount : String) :
    isOkE (getParams env s) = strTruthy env.accountAddress ∧
    isOkE (setSourceTokenAmount env s amount).result =
      (strTruthy env.accountAddress &&
       strTruthy (s.sourceToken.map (fun t => t.address))) ∧
    isOkE (createTokenAllowance env s).result =
      (strTruthy env.accountAddress &&
       strTruthy (s.sourceToken.map (fun t => t.address))) ∧
    isOkE (createConvert env s).result =
      (strTruthy env.accountAddress && !s.sourceTokenAmount.isEmpty &&
       strTruthy (s.sourceToken.map (fun t => t.address)) &&
       strTruthy (s.toToken.map (fun t => t.address)) &&
       natTruthy (s.sourceToken.map (fun t => t.decimals))) := by
  by_cases h : strTruthy env.accountAddress = true
  · simp only [setSourceTokenAmount, createTokenAllowance, createConvert,
      getParams, h, if_true]
    refine ⟨rfl, ?_, ?_, ?_⟩
    · split
      · simp_all [isOkE]
      · simp_all [isOkE, checkSourceTokenValues]
    · split <;> simp_all [isOkE]
    · split <;> rename_i hcond
      · simp only [isOkE]
        revert hcond
        cases hs : (!s.sourceTokenAmount.isEmpty) <;>
        cases h1 : strTruthy (s.sourceToken.map (fun t => t.address)) <;>
        cases h2 : strTruthy (s.toToken.map (fun t => t.address)) <;>
        cases h3 : natTruthy (s.sourceToken.map (fun t => t.decimals)) <;>
          simp_all
      · simp only [isOkE]
        revert hcond
        cases hs : (!s.sourceTokenAmount.isEmpty) <;>
        cases h1 : strTruthy (s.sourceToken.map (fun t => t.address)) <;>
        cases h2 : strTruthy (s.toToken.map (fun t => t.address)) <;>
        cases h3 : natTruthy (s.sourceToken.map (fun t => t.decimals)) <;>
          simp_all
  · have h' : strTruthy env.accountAddress = false := by
      revert h; cases strTruthy env.accountAddress <;> simp
    simp [setSourceTokenAmount, createTokenAllowance, createConvert,
      getParams, h', isOkE]

/-! C9 -/

/-- C9: checkSourceTokenValues stores the fetched price in
sourceTokenPriceInUSD; when the balance (the stored balance or the string 0
when unknown) times the price is strictly below the amount times the price
it flags Insufficient balance and zeroes the destination amount and price,
otherwise it clears inputError and leaves the destination fields
unchanged. -/
theorem c9_insufficient_balance (env : Env) (s : ConvertControllerState)
    (address amount : String) :
    (let balance := jsOr ((s.myTokensWithBalance.bind
        (fun m => List.lookup address m)).map (fun t => t.balance)) "0"
     let price := (getAddressPrice env s address).1
     let ins := jsLt (jsMul (parseFloat balance) price) (jsMul (parseFloat amount) price)
     let s1 := (checkSourceTokenValues env s address amount).1
     s1.sourceTokenPriceInUSD = price ∧
     s1.inputError = (if ins then some "Insufficient balance" else none) ∧
     s1.toTokenAmount = (if ins then "0" else s.toTokenAmount) ∧
     s1.toTokenPriceInUSD = (if ins then JSNum.num 0 else s.toTokenPriceInUSD)) := by
  have hp := getAddressPrice_preserves env s address
  simp only [checkSourceTokenValues]
  cases hins : jsLt (jsMul (parseFloat (jsOr ((s.myTokensWithBalance.bind
      (fun m => List.lookup address m)).map (fun t => t.balance)) "0"))
      (getAddressPrice env s address).1)
    (jsMul (parseFloat amount) (getAddressPrice env s address).1) <;>
    simp_all

/-! C2 -/

/-- C2: when the price API returns no (truthy) price for an address, the
price defaults to zero: getAddressPrice (on a cache miss) returns the
number 0 and caches the string 0; setTokenPriceToMap stores the string 0
(and writes networkPrice for the chain address); getNetworkTokenPrice
stores the string 0 under the chain address and in networkPrice. -/
theorem c2_price_defaults (env : Env) (s : ConvertControllerState) (a : String)
    (hcache : strTruthy (recGet s.tokensPriceMap a) = false)
    (hapi : strTruthy (List.lookup a (env.priceResponse [a])) = false)
    (hnet : strTruthy (List.lookup CURRENT_CHAIN_ADDRESS
      (env.priceResponse [CURRENT_CHAIN_ADDRESS])) = false) :
    (getAddressPrice env s a).1 = JSNum.num 0 ∧
    recGet (getAddressPrice env s a).2.1.tokensPriceMap a = some "0" ∧
    (setTokenPriceToMap env s a).1 = "0" ∧
    recGet (setTokenPriceToMap env s a).2.1.tokensPriceMap a = some "0" ∧
    (setTokenPriceToMap env s a).2.1.networkPrice =
      (if a = CURRENT_CHAIN_ADDRESS then "0" else s.networkPrice) ∧
    recGet (getNetworkTokenPrice env s).1.tokensPriceMap CURRENT_CHAIN_ADDRESS =
      some "0" ∧
    (getNetworkTokenPrice env s).1.networkPrice = "0" := by
  have h1 := jsOr_falsy _ "0" hapi
  have h2 := jsOr_falsy _ "0" hnet
  refine ⟨?_, ?_, ?_, ?_, ?_, ?_, ?_⟩
  · simp [getAddressPrice, hcache, h1, parseFloat_zero]
  · simp [getAddressPrice, hcache, h1, recGet_recSet_self]
  · simp [setTokenPriceToMap, h1]
  · by_cases hc : a = CURRENT_CHAIN_ADDRESS <;>
      simp [setTokenPriceToMap, h1, h2, hc, recGet_recSet_self]
  · by_cases hc : a = CURRENT_CHAIN_ADDRESS <;>
      simp [setTokenPriceToMap, h1, h2, hc]
  · simp [getNetworkTokenPrice, h2, recGet_recSet_self]
  · simp [getNetworkTokenPrice, h2]

/-- C2 witness: in the sample environment the price API knows no prices, so
a fresh address resolves to price zero everywhere. -/
theorem c2_witness :
    (getAddressPrice envW defaultState "0xdead").1 = JSNum.num 0 ∧
    recGet (getAddressPrice envW defaultState "0xdead").2.1.tokensPriceMap "0xdead" =
      some "0" ∧
    (setTokenPriceToMap envW defaultState "0xdead").1 = "0" ∧
    (getNetworkTokenPrice envW defaultState).1.networkPrice = "0" := by
  have h := c2_price_defaults envW defaultState "0xdead" (by decide) rfl rfl
  exact ⟨h.1, h.2.1, h.2.2.1, h.2.2.2.2.2.2⟩

/-! C7 -/

/-- C7: after getMyTokensWithBalance completes with a response, the price
map holds exactly one entry per returned token (its address mapped to its
price), every previously cached entry is gone, and myTokensWithBalance is
replaced by the response. -/
theorem c7_my_tokens_overwrite (env : Env) (s : ConvertControllerState)
    (l : List (String × TokenInfoWithBalance))
    (hres : env.myTokensResponse = some l) (hne : l ≠ [])
    (hnodup : (l.map Prod.fst).Nodup) :
    (getMyTokensWithBalance env s).1.tokensPriceMap =
      l.map (fun p => (p.1, p.2.price)) ∧
    (getMyTokensWithBalance env s).1.myTokensWithBalance = some l ∧
    ((getMyTokensWithBalance env s).1.tokensPriceMap.map Prod.fst).Nodup ∧
    (∀ a, recGet (getMyTokensWithBalance env s).1.tokensPriceMap a =
      (List.lookup a l).map (fun t => t.price)) := by
  refine ⟨?_, ?_, ?_, ?_⟩ <;>
    simp [getMyTokensWithBalance, hres, recGet, lookup_map_price]
  simpa [List.map_map, Function.comp] using hnodup

/-- Environment whose balance fetch returns one token. -/
def envMy : Env := { envW with myTokensResponse := some [("0xaaa", tokABal)] }

/-- A state with stale cached prices, including the network-token entry. -/
def sOld : ConvertControllerState :=
  { defaultState with
      tokensPriceMap := [("0xold", "5"), (CURRENT_CHAIN_ADDRESS, "7")] }

/-- C7 witness: the stale cache (including the network-token entry) is
discarded and replaced by the single returned token's price entry. -/
theorem c7_witness :
    (getMyTokensWithBalance envMy sOld).1.tokensPriceMap = [("0xaaa", "2")] ∧
    (getMyTokensWithBalance envMy sOld).1.myTokensWithBalance =
      some [("0xaaa", tokABal)] ∧
    recGet (getMyTokensWithBalance envMy sOld).1.tokensPriceMap
      CURRENT_CHAIN_ADDRESS = none := by
  have h := c7_my_tokens_overwrite envMy sOld [("0xaaa", tokABal)]
    rfl (by decide) (by decide)
  refine ⟨?_, h.2.1, ?_⟩
  · rw [h.1]; rfl
  · rw [h.2.2.2 CURRENT_CHAIN_ADDRESS]; rfl

/-! C8 -/

/-- setSourceToken with a present token stores it and leaves toToken
alone. -/
theorem setSourceToken_some (env : Env) (s : ConvertControllerState) (t : TokenInfo) :
    (setSourceToken env s (some t)).1.sourceToken = some t ∧
    (setSourceToken env s (some t)).1.toToken = s.toToken := by
  have hp := setTokenPriceToMap_preserves env { s with sourceToken := some t } t.address
  simp only [setSourceToken]
  split <;> simp_all

/-- setToToken with a token whose address is nonempty stores it and leaves
sourceToken alone. -/
theorem setToToken_some (env : Env) (s : ConvertControllerState) (t : TokenInfo)
    (ht : t.address ≠ "") :
    (setToToken env s (some t)).1.toToken = some t ∧
    (setToToken env s (some t)).1.sourceToken = s.sourceToken := by
  have hp := setTokenPriceToMap_preserves env { s with toToken := some t } t.address
  have hte : t.address.isEmpty = false := by
    cases hat : t.address.isEmpty
    · rfl
    · exact absurd ((String.isEmpty_iff t.address).mp hat) ht
  simp only [setToToken, hte, Bool.false_eq_true, if_false]
  split <;> simp_all [checkToTokenValues]

/-- C8: switchTokens swaps the two selected tokens when both are present,
keeps a side unchanged when the other side was absent, and always clears
both amount strings.  (The hypothesis that a selected source token has a
nonempty address reflects the TS address type, a string forced to start
with 0x.) -/
theorem c8_switch_tokens (env : Env) (s : ConvertControllerState)
    (haddr : ∀ u, s.sourceToken = some u → u.address ≠ "") :
    (switchTokens env s).1.sourceTokenAmount = "" ∧
    (switchTokens env s).1.toTokenAmount = "" ∧
    (∀ t u, s.toToken = some t → s.sourceToken = some u →
      (switchTokens env s).1.sourceToken = some t ∧
      (switchTokens env s).1.toToken = some u) ∧
    (s.toToken = none → (switchTokens env s).1.sourceToken = s.sourceToken) ∧
    (s.sourceToken = none → (switchTokens env s).1.toToken = s.toToken) := by
  refine ⟨rfl, rfl, ?_, ?_, ?_⟩
  · intro t u ht hu
    have h1 := setSourceToken_some env s t
    have h2 := setToToken_some env (setSourceToken env s (some t)).1 u (haddr u hu)
    constructor
    · simp only [switchTokens, ht, hu]
      simpa using h2.2.trans h1.1
    · simp only [switchTokens, ht, hu]
      simpa using h2.1
  · intro ht
    cases hsrc : s.sourceToken with
    | none => simp [switchTokens, ht, hsrc, setSourceToken, setToToken]
    | some u =>
      have h2 := setToToken_some env s u (haddr u hsrc)
      simp only [switchTokens, ht, hsrc, setSourceToken]
      simpa [hsrc] using h2.2
  · intro hsrc
    cases ht : s.toToken with
    | none => simp [switchTokens, ht, hsrc, setSourceToken, setToToken]
    | some t =>
      have h1 := setSourceToken_some env s t
      simp only [switchTokens, ht, hsrc, setToToken]
      simpa [ht] using h1.2

/-- C8 witness: with both tokens selected, switchTokens swaps them and
clears the amounts. -/
theorem c8_witness :
    (switchTokens envW sBoth).1.sourceToken = some tokB ∧
    (switchTokens envW sBoth).1.toToken = some tokA ∧
    (switchTokens envW sBoth).1.sourceTokenAmount = "" ∧
    (switchTokens envW sBoth).1.toTokenAmount = "" := by
  have h := c8_switch_tokens envW sBoth (by
    intro u hu
    have ht : tokA = u := by simpa [sBoth, defaultState] using hu
    subst ht
    decide)
  exact ⟨(h.2.2.1 tokB tokA rfl rfl).1, (h.2.2.1 tokB tokA rfl rfl).2, h.1, h.2.1⟩

/-! C10 -/

/-- C10: initializeState is idempotent: when the state is already
initialized it performs no fetches and leaves the state unchanged; the
first call performs the three fetches (token list, network token price,
balances) and sets initialized. -/
theorem c10_initialize_idempotent (env : Env) (s : ConvertControllerState) :
    (s.initialized = true → initializeState env s = (s, [])) ∧
    (s.initialized = false →
      (initializeState env s).2 =
        [Effect.fetchTokenList, Effect.fetchTokenPrice [CURRENT_CHAIN_ADDRESS],
         Effect.fetchMyTokens] ∧
      (initializeState env s).1.initialized = true) := by
  cases h : s.initialized
  · refine ⟨by simp [h], fun _ => ⟨?_, ?_⟩⟩
    · simp only [initializeState, h, Bool.false_eq_true, if_false,
        getTokenList, getNetworkTokenPrice]
      cases hmt : env.myTokensResponse <;> simp [getMyTokensWithBalance, hmt]
    · simp only [initializeState, h, Bool.false_eq_true, if_false,
        getTokenList, getNetworkTokenPrice]
  · exact ⟨fun _ => by simp [initializeState, h], by simp [h]⟩

/-- C10 witness: a second call on an initialized state is a no-op with no
fetches; the first call fetches three times and initializes. -/
theorem c10_witness :
    initializeState envW { defaultState with initialized := true } =
      ({ defaultState with initialized := true }, []) ∧
    (initializeState envW defaultState).2 =
      [Effect.fetchTokenList, Effect.fetchTokenPrice [CURRENT_CHAIN_ADDRESS],
       Effect.fetchMyTokens] ∧
    (initializeState envW defaultState).1.initialized = true :=
  ⟨(c10_initialize_idempotent envW _).1 rfl,
   ((c10_initialize_idempotent envW defaultState).2 rfl).1,
   ((c10_initialize_idempotent envW defaultState).2 rfl).2⟩

/-! C1 -/

/-- C1: when the wallet layer rejects a transaction submission (and
getParams itself succeeds), neither send operation propagates the
rejection: both store the error's shortMessage in transactionError, reset
transactionLoading, and show the message (or a fallback text) through the
notification controller; sendTransactionForConvert additionally returns
undefined. -/
theorem c1_send_errors_caught (env : Env) (s : ConvertControllerState)
    (e : TransactionError) (d : TransactionParams)
    (haddr : strTruthy env.accountAddress = true)
    (herr : env.sendTxResult = Except.error e) :
    (sendTransactionForApproval env s d).result = Except.ok () ∧
    (sendTransactionForApproval env s d).state.transactionError = e.shortMessage ∧
    (sendTransactionForApproval env s d).state.transactionLoading = false ∧
    Effect.showError (jsOr e.shortMessage "Transaction errror") ∈
      (sendTransactionForApproval env s d).effects ∧
    (sendTransactionForConvert env s (some d)).result = Except.ok none ∧
    (sendTransactionForConvert env s (some d)).state.transactionError =
      e.shortMessage ∧
    (sendTransactionForConvert env s (some d)).state.transactionLoading = false ∧
    Effect.showError (jsOr e.shortMessage "Transaction error") ∈
      (sendTransactionForConvert env s (some d)).effects := by
  simp [sendTransactionForApproval, sendTransactionForConvert, getParams, haddr, herr]

/-- C1 witness: in the sample environment the submission rejects with
shortMessage boom, which both send operations catch, store and display. -/
theorem c1_witness :
    (sendTransactionForApproval envW defaultState txSample).result = Except.ok () ∧
    (sendTransactionForApproval envW defaultState txSample).state.transactionError =
      some "boom" ∧
    (sendTransactionForApproval envW defaultState txSample).state.transactionLoading
      = false ∧
    (sendTransactionForConvert envW defaultState (some txSample)).result =
      Except.ok none ∧
    (sendTransactionForConvert envW defaultState
      (some txSample)).state.transactionLoading = false ∧
    Effect.showError "boom" ∈
      (sendTransactionForConvert envW defaultState (some txSample)).effects := by
  have h := c1_send_errors_caught envW defaultState errBoom txSample rfl rfl
  exact ⟨h.1, h.2.1, h.2.2.1, h.2.2.2.2.1, h.2.2.2.2.2.2.1, h.2.2.2.2.2.2.2⟩

/-! C4 -/

/-- createConvert never touches convertLoading. -/
theorem createConvert_convertLoading (env : Env) (s : ConvertControllerState) :
    (createConvert env s).state.convertLoading = s.convertLoading := by
  cases hgp : getParams env s with
  | error e => simp [createConvert, hgp]
  | ok p =>
    simp only [createConvert, hgp]
    split <;> simp

/-- createTokenAllowance never touches convertLoading. -/
theorem createTokenAllowance_convertLoading (env : Env) (s : ConvertControllerState) :
    (createTokenAllowance env s).state.convertLoading = s.convertLoading := by
  cases hgp : getParams env s with
  | error e => simp [createTokenAllowance, hgp]
  | ok p =>
    simp only [createTokenAllowance, hgp]
    split <;> simp

/-- setToTokenAmountValue never touches convertLoading. -/
theorem setToTokenAmountValue_convertLoading (env : Env) (s : ConvertControllerState)
    (a : String) (dec : Nat) (addr : String) :
    (setToTokenAmountValue env s a dec addr).state.convertLoading = s.convertLoading := by
  unfold setToTokenAmountValue
  split
  · rfl
  · split <;> simp

/-- setTransactionDetails never touches convertLoading. -/
theorem setTransactionDetails_convertLoading (env : Env) (s : ConvertControllerState)
    (gas gasPrice : Int) :
    (setTransactionDetails env s gas gasPrice).state.convertLoading = s.convertLoading := by
  cases hgp : getParams env s with
  | error e => simp [setTransactionDetails, hgp]
  | ok p =>
    simp only [setTransactionDetails, hgp]
    split <;> simp

/-- makeChecks never touches convertLoading, and whenever it completes
without throwing having passed its guard, it leaves loading false. -/
theorem makeChecks_props (env : Env) (s : ConvertControllerState) :
    (makeChecks env s).state.convertLoading = s.convertLoading ∧
    (isOkE (makeChecks env s).result = true → makeChecksGuardPassed env s = true →
      (makeChecks env s).state.loading = false) := by
  cases hgp : getParams env s with
  | error e => simp [makeChecks, hgp, isOkE]
  | ok p =>
    simp only [makeChecks, hgp, makeChecksGuardPassed]
    split
    · rename_i hg
      simp_all [isOkE]
    · rename_i hg
      split
      · split
        · next e s3 eff3 heq =>
          have h1 := createConvert_convertLoading env
            { { s with loading := true } with approvalTransaction := none }
          rw [heq] at h1
          simp_all [isOkE]
        · next tx s3 eff3 heq =>
          have h1 := createConvert_convertLoading env
            { { s with loading := true } with approvalTransaction := none }
          rw [heq] at h1
          split
          · next e s5 eff5 heq2 =>
            have h2 := setToTokenAmountValue_convertLoading env
              { s3 with convertTransaction := some tx }
              (getToAmount { s with loading := true })
              (p.toTokenDecimals.getD 0) (p.toTokenAddress.getD "")
            rw [heq2] at h2
            simp_all [isOkE]
          · next u s5 eff5 heq2 =>
            have h2 := setToTokenAmountValue_convertLoading env
              { s3 with convertTransaction := some tx }
              (getToAmount { s with loading := true })
              (p.toTokenDecimals.getD 0) (p.toTokenAddress.getD "")
            rw [heq2] at h2
            split
            · next e s6 eff6 heq3 =>
              have h3 := setTransactionDetails_convertLoading env s5 tx.gas tx.gasPrice
              rw [heq3] at h3
              simp_all [isOkE]
            · next u2 s6 eff6 heq3 =>
              have h3 := setTransactionDetails_convertLoading env s5 tx.gas tx.gasPrice
              rw [heq3] at h3
              simp_all [isOkE]
      · split
        · next e s3 eff3 heq =>
          have h1 := createTokenAllowance_convertLoading env { s with loading := true }
          rw [heq] at h1
          simp_all [isOkE]
        · next tx s3 eff3 heq =>
          have h1 := createTokenAllowance_convertLoading env { s with loading := true }
          rw [heq] at h1
          split
          · next e s5 eff5 heq2 =>
            have h2 := setToTokenAmountValue_convertLoading env
              { s3 with approvalTransaction := some tx }
              (getToAmount { s with loading := true })
              (p.toTokenDecimals.getD 0) (p.toTokenAddress.getD "")
            rw [heq2] at h2
            simp_all [isOkE]
          · next u s5 eff5 heq2 =>
            have h2 := setToTokenAmountValue_convertLoading env
              { s3 with approvalTransaction := some tx }
              (getToAmount { s with loading := true })
              (p.toTokenDecimals.getD 0) (p.toTokenAddress.getD "")
            rw [heq2] at h2
            split
            · next e s6 eff6 heq3 =>
              have h3 := setTransactionDetails_convertLoading env s5 tx.gas tx.gasPrice
              rw [heq3] at h3
              simp_all [isOkE]
            · next u2 s6 eff6 heq3 =>
              have h3 := setTransactionDetails_convertLoading env s5 tx.gas tx.gasPrice
              rw [heq3] at h3
              simp_all [isOkE]

/-- Once convertTokens enters its main path it sets convertLoading, and no
code in the file ever resets it. -/
theorem convertTokens_convertLoading (env : Env) (s : ConvertControllerState)
    (h : convertTokensEntered env s = true) :
    (convertTokens env s).state.convertLoading = true := by
  cases hgp : getParams env s with
  | error e => simp [convertTokensEntered, hgp] at h
  | ok p =>
    simp only [convertTokensEntered, hgp] at h
    have hc : (!(strTruthy p.sourceTokenAddress) || !(strTruthy p.toTokenAddress))
        = false := by simp_all
    simp only [convertTokens, hgp, hc, Bool.false_eq_true, if_false]
    simpa using (makeChecks_props env { s with convertLoading := true }).1

/-- C4 counterexample: a convertTokens run that completes normally (no
throw, full path) ends with convertLoading still true, not false: the flag
is never reset. -/
theorem c4_counterexample :
    isOkE (convertTokens envW sBoth).result = true ∧
    (convertTokens envW sBoth).state.convertLoading = true := by
  constructor
  · simp [convertTokens, makeChecks, makeChecksGuard, getParams, envW, sBoth,
      defaultState, tokA, tokB, strTruthy, natTruthy, getToAmount, jsTruthy, jsMul,
      jsDiv, createConvert, setToTokenAmountValue, setTransactionDetails, recGet,
      parseFloat_one, parseFloat_zero, jsRound_zero, jsNumToString_zero, jsBigInt_zero,
      calculateGasPriceInUSD, calculateGasPriceInEther, calculatePriceImpact,
      calculateMaxSlippage, jsOr, isOkE,
      show "0xme".isEmpty = false from rfl,
      show "0xaaa".isEmpty = false from rfl,
      show "0xbbb".isEmpty = false from rfl,
      show "1".isEmpty = false from rfl,
      show "0".isEmpty = false from rfl]
  · exact convertTokens_convertLoading envW sBoth (by decide)

/-- C4 (amended): transactionLoading follows the loading-then-done
lifecycle in both send operations, and loading is false after makeChecks
completes without throwing on the non-early-return path; but convertLoading
does not: after convertTokens completes past its early return,
convertLoading is true and is never reset by any operation. -/
theorem c4_loading_flags (env : Env) (s : ConvertControllerState)
    (d : TransactionParams) :
    (isOkE (makeChecks env s).result = true → makeChecksGuardPassed env s = true →
      (makeChecks env s).state.loading = false) ∧
    (convertTokensEntered env s = true →
      (convertTokens env s).state.convertLoading = true) ∧
    (strTruthy env.accountAddress = true →
      (sendTransactionForApproval env s d).state.transactionLoading = false ∧
      (sendTransactionForConvert env s (some d)).state.transactionLoading = false) := by
  refine ⟨fun h1 h2 => (makeChecks_props env s).2 h1 h2,
    convertTokens_convertLoading env s, fun h => ?_⟩
  cases henv : env.sendTxResult <;>
    simp [sendTransactionForApproval, sendTransactionForConvert, getParams, h, henv]

/-- C4 witness: on the sample run makeChecks rests loading, both send
operations rest transactionLoading, and convertTokens leaves convertLoading
set. -/
theorem c4_witness :
    (makeChecks envW sBoth).state.loading = false ∧
    (convertTokens envW sBoth).state.convertLoading = true ∧
    (sendTransactionForApproval envW sBoth txSample).state.transactionLoading
      = false ∧
    (sendTransactionForConvert envW sBoth
      (some txSample)).state.transactionLoading = false := by
  have h := c4_loading_flags envW sBoth txSample
  refine ⟨h.1 ?_ ?_, h.2.1 (by decide), (h.2.2 rfl).1, (h.2.2 rfl).2⟩
  · simp [makeChecks, makeChecksGuard, getParams, envW, sBoth,
      defaultState, tokA, tokB, strTruthy, natTruthy, getToAmount, jsTruthy, jsMul,
      jsDiv, createConvert, setToTokenAmountValue, setTransactionDetails, recGet,
      parseFloat_one, parseFloat_zero, jsRound_zero, jsNumToString_zero, jsBigInt_zero,
      calculateGasPriceInUSD, calculateGasPriceInEther, calculatePriceImpact,
      calculateMaxSlippage, jsOr, isOkE,
      show "0xme".isEmpty = false from rfl,
      show "0xaaa".isEmpty = false from rfl,
      show "0xbbb".isEmpty = false from rfl,
      show "1".isEmpty = false from rfl,
      show "0".isEmpty = false from rfl]
  · simp [makeChecksGuardPassed, makeChecksGuard, getParams, envW, sBoth,
      defaultState, tokA, tokB, strTruthy, natTruthy, parseFloat_one,
      show "0xme".isEmpty = false from rfl,
      show "0xaaa".isEmpty = false from rfl,
      show "0xbbb".isEmpty = false from rfl,
      show "1".isEmpty = false from rfl]

end Web3Modal
